import Mathlib

/-!
Shallow embedding of the Route Planning & Progress Orchestrator of
`src/App.tsx` (navsabres/Accessibility-App).

JavaScript numbers are modelled as exact rationals (`ℚ`); `Math.round`
is Mathlib's `round` (round-half-up, matching JS `Math.round` on the
values that occur here).  Coordinates are `(longitude, latitude)` pairs,
stored exactly as the `[lng, lat]` arrays of the source.

The four network services (`geocodeLocation`, `calculateRoute`,
`fetchAccessibilityFeaturesForRoute`, `fetchWeatherData`) live in
`src/services/*`, which is not part of the provided source; they are
treated as an opaque environment `Env` whose result shapes follow the
spec's boundary contracts (§6).  `App.tsx` itself — input validation,
sequencing, error handling, state updates, the progress simulation and
the remaining-duration effect — is translated statement by statement.
-/

namespace AccessApp

/-- Modelled from the spec: `RoutePreferences` (§3) — the fields are exactly
the ones constructed at `src/App.tsx` lines 42–48 (`maxSlope`,
`preferredSurfaces`, `avoidStairs`, `requireElevators`, `minPathWidth`);
the defining file `src/types.ts` is not in the provided source. -/
structure RoutePreferences where
  maxSlope : ℚ
  preferredSurfaces : List String
  avoidStairs : Bool
  requireElevators : Bool
  minPathWidth : ℚ
deriving DecidableEq, Repr

/-- Modelled from the spec: `AccessibilityFeature` (§3: type, location,
description, status, rating); `src/types.ts` is not in the provided source.
Only the identity of features matters to the orchestrator, which stores the
list it receives wholesale. -/
structure AccessibilityFeature where
  ftype : String
  location : ℚ × ℚ
  description : String
  status : String
  rating : Option ℚ
deriving DecidableEq, Repr

/-- Modelled from the spec: weather condition enum (§3: clear, rain, snow,
extreme, other); `src/services/weatherService.ts` is not in the provided
source.  `App.tsx` tests the RAIN/SNOW/EXTREME values. -/
inductive WeatherCondition where
  | clear
  | rain
  | snow
  | extreme
  | other
deriving DecidableEq, Repr

/-- Modelled from the spec: `WeatherSnapshot` (§3) plus the fields `App.tsx`
reads (`temperature`, `precipitation`, `condition`, `icon`, `description`);
`src/services/weatherService.ts` is not in the provided source. -/
structure WeatherData where
  temperature : ℚ
  precipitation : ℚ
  condition : WeatherCondition
  icon : String
  description : String
deriving DecidableEq, Repr

/-- The route object returned by `calculateRoute`: a coordinate path plus
duration (seconds) and distance (meters), as consumed at
`src/App.tsx` lines 117–136. -/
structure RouteResult where
  coordinates : List (ℚ × ℚ)
  duration : ℚ
  distance : ℚ
deriving DecidableEq, Repr

/-- The component state of `App` (`useState` hooks, `src/App.tsx`
lines 42–66), with the initial values recorded in `initialAppState`. -/
structure AppState where
  routePreferences : RoutePreferences
  routeCoordinates : List (ℚ × ℚ)
  routeDuration : Option ℚ
  routeDistance : Option ℚ
  isCalculatingRoute : Bool
  routeError : Option String
  initialDuration : Option ℚ
  routeProgress : ℚ
  accessibilityFeatures : List AccessibilityFeature
  isLoadingFeatures : Bool
  weatherData : Option WeatherData
  currentLocation : ℚ × ℚ
deriving DecidableEq, Repr

/-- Initial hook values, `src/App.tsx` lines 42–66: mock duration 7200 s,
mock distance 2500 m, default location NYC `[-73.985, 40.748]`. -/
def initialAppState : AppState :=
  { routePreferences :=
      { maxSlope := 8
        preferredSurfaces := ["paved", "smooth"]
        avoidStairs := true
        requireElevators := true
        minPathWidth := 32 }
    routeCoordinates := []
    routeDuration := some 7200
    routeDistance := some 2500
    isCalculatingRoute := false
    routeError := none
    initialDuration := none
    routeProgress := 0
    accessibilityFeatures := []
    isLoadingFeatures := false
    weatherData := none
    currentLocation := (-73.985, 40.748) }

/-- The network boundary used by `handleFindRoute`.  Result shapes follow
the spec's external-interface contracts (§6, §4.1–§4.4), since the service
implementations are not in the provided source:
geocoding returns a coordinate or nothing (`NotFound` and `Unavailable`
are surfaced identically to the caller, §4.1); route calculation returns a
route, no route (`null`), or an unexpected failure (`Except.error`,
covering the spec's `UnknownError` §7); the accessibility fetch may throw
(§6); the weather fetch may fail (`Unavailable`, §4.4). -/
structure Env where
  geocode : String → Option (ℚ × ℚ)
  calculateRoute : (ℚ × ℚ) → (ℚ × ℚ) → RoutePreferences → Except Unit (Option RouteResult)
  fetchFeatures : List (ℚ × ℚ) → Except Unit (List AccessibilityFeature)
  fetchWeather : ℚ → ℚ → Except Unit WeatherData
deriving Inhabited

/-- One observable network call issued by `handleFindRoute`. -/
inductive NetCall where
  | geocode (query : String)
  | calcRoute (start finish : ℚ × ℚ)
  | fetchFeatures (path : List (ℚ × ℚ))
  | fetchWeather (lat lng : ℚ)
deriving DecidableEq, Repr

/-- Error message of the empty-input guard, `src/App.tsx` line 92. -/
def inputErrorMsg : String := "Please enter both start location and destination"

/-- Error message for a failed geocode, `src/App.tsx` lines 105/111. -/
def notFoundMsg (place : String) : String := "Could not find location: " ++ place

/-- Error message of the no-route branch, `src/App.tsx` line 120. -/
def noRouteMsg : String := "Could not find an accessible route between these locations"

/-- Error message of the outer catch, `src/App.tsx` line 168. -/
def unknownErrorMsg : String := "An error occurred while finding the route"

/-- Body of the `try` block of `handleFindRoute` (`src/App.tsx`
lines 99–165), returning the updated state together with the trace of
network calls it issued.  The caller wraps it with the `finally` that
clears `isCalculatingRoute` (line 170). -/
def tryFindRoute (env : Env) (startLocation destination : String) (s : AppState) :
    AppState × List NetCall :=
  -- lines 101–102: both endpoints are geocoded before either is checked
  let startCoords := env.geocode startLocation
  let endCoords := env.geocode destination
  let calls := [NetCall.geocode startLocation, NetCall.geocode destination]
  match startCoords with
  | none =>
      -- lines 104–108
      ({ s with routeError := some (notFoundMsg startLocation),
                isCalculatingRoute := false }, calls)
  | some sc =>
    match endCoords with
    | none =>
        -- lines 110–114
        ({ s with routeError := some (notFoundMsg destination),
                  isCalculatingRoute := false }, calls)
    | some ec =>
      -- line 117
      let calls := calls ++ [NetCall.calcRoute sc ec]
      match env.calculateRoute sc ec s.routePreferences with
      | .error _ =>
          -- unexpected failure: outer catch, lines 166–168
          ({ s with routeError := some unknownErrorMsg }, calls)
      | .ok routeOpt =>
        match routeOpt with
        | none =>
            -- lines 119–123
            ({ s with routeError := some noRouteMsg, isCalculatingRoute := false }, calls)
        | some route =>
          if route.coordinates = [] then
            -- lines 119–123 (`route.coordinates.length === 0`)
            ({ s with routeError := some noRouteMsg, isCalculatingRoute := false }, calls)
          else
            -- lines 126–130: publish the route, reset progress
            let s := { s with routeCoordinates := route.coordinates
                              routeDuration := some route.duration
                              initialDuration := some route.duration
                              routeDistance := some route.distance
                              routeProgress := 0
                              isLoadingFeatures := true }
            -- lines 140–148: feature fetch with its own try/catch/finally
            let calls := calls ++ [NetCall.fetchFeatures route.coordinates]
            let s :=
              match env.fetchFeatures route.coordinates with
              | .ok features =>
                  { s with accessibilityFeatures := features, isLoadingFeatures := false }
              | .error _ =>
                  { s with isLoadingFeatures := false }
            -- lines 151–164: weather fetch with its own try/catch;
            -- `fetchWeatherData(startCoords[1], startCoords[0])` is (lat, lng)
            let calls := calls ++ [NetCall.fetchWeather sc.2 sc.1]
            let s :=
              match env.fetchWeather sc.2 sc.1 with
              | .ok weather =>
                  { s with weatherData := some weather, currentLocation := (sc.1, sc.2) }
              | .error _ => s
            (s, calls)

/-- `handleFindRoute` (`src/App.tsx` lines 90–172) run to completion with
no interleaved invocation, returning the final state and the network calls
issued.  The empty-string guard is JS falsiness: only `""` is falsy among
strings, so whitespace-only input passes the guard. -/
def handleFindRoute (env : Env) (startLocation destination : String) (s : AppState) :
    AppState × List NetCall :=
  if startLocation = "" ∨ destination = "" then
    -- lines 91–94: early return, before the calculating flag is touched
    ({ s with routeError := some inputErrorMsg }, [])
  else
    -- lines 96–97
    let s := { s with isCalculatingRoute := true, routeError := none }
    let (s, calls) := tryFindRoute env startLocation destination s
    -- line 170: `finally` clears the calculating flag on every path
    ({ s with isCalculatingRoute := false }, calls)

/-- One firing of the interval callback of the progress simulation
(`src/App.tsx` lines 202–217), acting on `(progressFraction,
intervalActive)`.  While the interval is active, progress grows by
`0.005`; a tick whose increment reaches or exceeds `1` clamps to exactly
`1` and clears the interval.  Once the interval is cleared the callback
never fires again, modelled as the identity. -/
def simTick (st : ℚ × Bool) : ℚ × Bool :=
  if st.2 then
    let newProgress := st.1 + 0.005
    if newProgress ≥ 1 then (1, false) else (newProgress, true)
  else st

/-- Progress/interval state after `k` ticks of one simulation run: the
run starts at fraction `0` with a live interval (`src/App.tsx`
lines 199–217). -/
def simRun : ℕ → ℚ × Bool
  | 0 => (0, true)
  | k + 1 => simTick (simRun k)

/-- The rounded remaining duration published by the effect at
`src/App.tsx` line 232: `Math.round(initialDuration * (1 - routeProgress))`. -/
def remainingDuration (d p : ℚ) : ℚ := ((round (d * (1 - p)) : ℤ) : ℚ)

/-- One pass of the remaining-duration effect (`src/App.tsx`
lines 229–235) over the published `routeDuration`, given the current
`initialDuration` value `d` and `routeProgress` value `p`.  The JS guard
`initialDuration && routeProgress < 1` skips the update when `d` is
falsy (`0`) or progress has reached `1`. -/
def durationEffect (d p dur : ℚ) : ℚ :=
  if d ≠ 0 ∧ p < 1 then remainingDuration d p else dur

/-- Joint simulation state after a route with duration `d` is accepted
and `k` ticks have fired: `((progressFraction, intervalActive),
publishedRouteDuration)`.  At acceptance `routeDuration` is set to `d`
(`src/App.tsx` line 127) and progress resets to `0` (lines 130/199);
the remaining-duration effect re-runs after every progress change
(lines 229–235). -/
def runState (d : ℚ) : ℕ → (ℚ × Bool) × ℚ
  | 0 => ((0, true), durationEffect d 0 d)
  | k + 1 =>
      let st := runState d k
      let pr := simTick st.1
      (pr, durationEffect d pr.1 st.2)

/-- A live tick either clamps or advances by `0.005`. -/
theorem simTick_active (p : ℚ) :
    simTick (p, true) = if p + 0.005 ≥ 1 then (1, false) else (p + 0.005, true) := rfl

/-- Once the interval is cleared a tick changes nothing. -/
theorem simTick_inactive (p : ℚ) : simTick (p, false) = (p, false) := rfl

/-- Closed form of the simulation run: before tick `200` the fraction is
`k / 200` with the interval live; from tick `200` on it is frozen at `1`
with the interval cleared. -/
theorem simRun_closedForm (k : ℕ) :
    simRun k = if k < 200 then ((k : ℚ) / 200, true) else (1, false) := by
  induction k with
  | zero => simp [simRun]
  | succ k ih =>
      rw [simRun, ih]
      by_cases hk : k < 200
      · rw [if_pos hk]
        have hstep : (k : ℚ) / 200 + 0.005 = ((k : ℚ) + 1) / 200 := by
          rw [show (0.005 : ℚ) = 1 / 200 by norm_num]
          ring
        by_cases hk1 : k + 1 < 200
        · rw [if_pos hk1]
          have hlt : (k : ℚ) / 200 + 0.005 < 1 := by
            rw [hstep, div_lt_one (by norm_num : (0 : ℚ) < 200)]
            have : ((k : ℕ) : ℚ) + 1 < 200 := by exact_mod_cast hk1
            linarith
          rw [simTick_active, if_neg (not_le.mpr hlt)]
          push_cast
          rw [hstep]
        · have hk200 : k = 199 := by omega
          subst hk200
          rw [if_neg hk1, simTick_active, if_pos (by push_cast; norm_num)]
      · rw [if_neg hk, if_neg (by omega), simTick_inactive]

example : simRun 10 = (1/20, true) := by norm_num [simRun_closedForm]
example : simRun 200 = (1, false) := by norm_num [simRun_closedForm]
example : simRun 500 = (1, false) := by norm_num [simRun_closedForm]

/-- The progress component of `runState` coincides with `simRun`. -/
theorem runState_fst (d : ℚ) (k : ℕ) : (runState d k).1 = simRun k := by
  induction k with
  | zero => rfl
  | succ k ih => rw [runState, simRun, ih]

/-- One invocation of `handleFindRoute` cut at its suspension points
(`await geocodeLocation` ×2, `await calculateRoute`,
`await fetchAccessibilityFeaturesForRoute`, `await fetchWeatherData`):
the list of atomic state-transformer segments the invocation performs, in
order, with each awaited value resolved from the (deterministic)
environment.  `prefs` is the `routePreferences` component state read by
the `calculateRoute` call at `src/App.tsx` line 117; no operation modelled
here mutates it, so it is passed as a fixed parameter.  Two concurrent
invocations interleave these segments cooperatively (spec §5); the code
applies every late-arriving result unconditionally, which is exactly what
these segments record. -/
def segsOf (env : Env) (prefs : RoutePreferences) (startLocation destination : String) :
    List (AppState → AppState) :=
  if startLocation = "" ∨ destination = "" then
    -- lines 91–94: single synchronous segment, no suspension
    [fun s => { s with routeError := some inputErrorMsg }]
  else
    -- segment 1, lines 96–101: set flags, issue geocode(start), suspend
    (fun s => { s with isCalculatingRoute := true, routeError := none }) ::
    -- segment 2, line 102: receive startCoords, issue geocode(dest), suspend
    (fun s => s) ::
    match env.geocode startLocation with
    | none =>
        -- lines 104–108 then the finally of line 170, one synchronous segment
        [fun s => { s with routeError := some (notFoundMsg startLocation),
                           isCalculatingRoute := false }]
    | some sc =>
      match env.geocode destination with
      | none =>
          -- lines 110–114 then the finally
          [fun s => { s with routeError := some (notFoundMsg destination),
                             isCalculatingRoute := false }]
      | some ec =>
        -- segment 3, line 117: checks passed, issue calculateRoute, suspend
        (fun s => s) ::
        match env.calculateRoute sc ec prefs with
        | .error _ =>
            -- outer catch (lines 166–168) and finally, one segment
            [fun s => { s with routeError := some unknownErrorMsg,
                               isCalculatingRoute := false }]
        | .ok routeOpt =>
          match routeOpt with
          | none =>
              [fun s => { s with routeError := some noRouteMsg,
                                 isCalculatingRoute := false }]
          | some route =>
            if route.coordinates = [] then
              [fun s => { s with routeError := some noRouteMsg,
                                 isCalculatingRoute := false }]
            else
              -- segment 4, lines 126–141: publish route, reset progress,
              -- issue the feature fetch, suspend
              [fun s => { s with routeCoordinates := route.coordinates
                                 routeDuration := some route.duration
                                 initialDuration := some route.duration
                                 routeDistance := some route.distance
                                 routeProgress := 0
                                 isLoadingFeatures := true },
               -- segment 5, lines 142–153: apply (or drop) the feature
               -- result, issue the weather fetch, suspend
               (match env.fetchFeatures route.coordinates with
                | .ok features => fun s =>
                    { s with accessibilityFeatures := features, isLoadingFeatures := false }
                | .error _ => fun s => { s with isLoadingFeatures := false }),
               -- segment 6, lines 156–170: apply (or drop) the weather
               -- result, clear the calculating flag (finally)
               (match env.fetchWeather sc.2 sc.1 with
                | .ok weather => fun s =>
                    { s with weatherData := some weather,
                             currentLocation := (sc.1, sc.2),
                             isCalculatingRoute := false }
                | .error _ => fun s => { s with isCalculatingRoute := false })]

/-- Cooperative interleaving of two invocations (spec §5): `sched` picks,
step by step, whose next pending segment runs; a pick for an invocation
with no pending segments is a no-op. -/
def runInterleaving :
    List (AppState → AppState) → List (AppState → AppState) → List Bool → AppState → AppState
  | _, _, [], s => s
  | segs1, segs2, true :: rest, s =>
      match segs1 with
      | [] => runInterleaving [] segs2 rest s
      | f :: fs => runInterleaving fs segs2 rest (f s)
  | segs1, segs2, false :: rest, s =>
      match segs1 with
      | segs1 =>
        match segs2 with
        | [] => runInterleaving segs1 [] rest s
        | f :: fs => runInterleaving segs1 fs rest (f s)

/-- Running one invocation's segments with no interleaving agrees with the
straight-line `handleFindRoute` state result. -/
theorem segsOf_foldl (env : Env) (startLocation destination : String) (s : AppState) :
    (segsOf env s.routePreferences startLocation destination).foldl (fun t f => f t) s =
      (handleFindRoute env startLocation destination s).1 := by
  unfold segsOf handleFindRoute tryFindRoute
  by_cases h : startLocation = "" ∨ destination = ""
  · simp [h]
  · rw [if_neg h, if_neg h]
    cases hg1 : env.geocode startLocation with
    | none => simp [hg1]
    | some sc =>
      cases hg2 : env.geocode destination with
      | none => simp [hg1, hg2]
      | some ec =>
        cases hr : env.calculateRoute sc ec s.routePreferences with
        | error e => simp [hg1, hg2, hr]
        | ok routeOpt =>
          cases routeOpt with
          | none => simp [hg1, hg2, hr]
          | some route =>
            by_cases hc : route.coordinates = []
            · simp [hg1, hg2, hr, hc]
            · cases hf : env.fetchFeatures route.coordinates with
              | ok features =>
                  cases hw : env.fetchWeather sc.2 sc.1 with
                  | ok weather => simp [hg1, hg2, hr, hc, hf, hw]
                  | error e => simp [hg1, hg2, hr, hc, hf, hw]
              | error e =>
                  cases hw : env.fetchWeather sc.2 sc.1 with
                  | ok weather => simp [hg1, hg2, hr, hc, hf, hw]
                  | error e => simp [hg1, hg2, hr, hc, hf, hw]

/-- A sample accessibility feature as produced by the demo environment:
its location marks the start of the path it was fetched for. -/
def rampFeature (loc : ℚ × ℚ) : AccessibilityFeature :=
  { ftype := "ramp"
    location := loc
    description := "curb ramp"
    status := "active"
    rating := some 4 }

/-- A concrete, fully successful environment used to instantiate the
theorems: three known places, a route of duration 7200 s and distance
2500 m between any two coordinates, one accessibility feature located at
the start of the queried path, and a weather snapshot tagged with the
queried latitude. -/
def demoEnv : Env :=
  { geocode := fun q =>
      if q = "Union Station" then some (10, 20)
      else if q = "City Library" then some (11, 21)
      else if q = "Museum" then some (12, 22)
      else none
    calculateRoute := fun a b _ =>
      .ok (some { coordinates := [a, b], duration := 7200, distance := 2500 })
    fetchFeatures := fun path => .ok [rampFeature (path.headD (0, 0))]
    fetchWeather := fun lat _ =>
      .ok { temperature := lat
            precipitation := 0
            condition := .clear
            icon := "01d"
            description := "clear sky" } }

/-- The demo environment with a route calculator that finds no route. -/
def noRouteEnv : Env := { demoEnv with calculateRoute := fun _ _ _ => .ok none }

/-- The demo environment with an accessibility fetch that throws. -/
def featureThrowEnv : Env := { demoEnv with fetchFeatures := fun _ => .error () }

/-- C4: within one simulation run started after a successful route
request, the progress fraction starts at 0 and is non-decreasing on every
tick; before tick 200 (the first tick whose 0.005 increment reaches 1) it
stays strictly below 1 with the interval live; on tick 200 it is set to
exactly 1 and the interval is cancelled; and no subsequent tick changes
the fraction. -/
theorem C4_progress_monotone_clamped :
    (simRun 0).1 = 0 ∧
    (∀ k, (simRun k).1 ≤ (simRun (k + 1)).1) ∧
    (∀ k, k < 200 → (simRun k).1 < 1 ∧ (simRun k).2 = true) ∧
    simRun 200 = (1, false) ∧
    (∀ k, 200 ≤ k → simRun k = (1, false)) := by
  refine ⟨rfl, ?_, ?_, ?_, ?_⟩
  · intro k
    rw [simRun_closedForm, simRun_closedForm]
    by_cases hk : k < 200
    · rw [if_pos hk]
      by_cases hk1 : k + 1 < 200
      · rw [if_pos hk1]
        have : ((k : ℕ) : ℚ) ≤ ((k + 1 : ℕ) : ℚ) := by exact_mod_cast Nat.le_succ k
        exact div_le_div_of_nonneg_right this (by norm_num) |>.trans_eq rfl
      · rw [if_neg hk1]
        have hk199 : k ≤ 199 := by omega
        have : ((k : ℕ) : ℚ) ≤ 200 := by exact_mod_cast Nat.le_of_lt hk
        calc ((k : ℕ) : ℚ) / 200 ≤ 200 / 200 :=
              div_le_div_of_nonneg_right this (by norm_num)
          _ = 1 := by norm_num
    · rw [if_neg hk, if_neg (by omega)]
  · intro k hk
    rw [simRun_closedForm, if_pos hk]
    refine ⟨?_, rfl⟩
    rw [div_lt_one (by norm_num : (0 : ℚ) < 200)]
    exact_mod_cast hk
  · norm_num [simRun_closedForm]
  · intro k hk
    rw [simRun_closedForm, if_neg (by omega)]

/-- Witness for C4 at concrete ticks 50 and 300. -/
theorem C4_witness :
    (simRun 50).1 ≤ (simRun 51).1 ∧
    ((simRun 50).1 < 1 ∧ (simRun 50).2 = true) ∧
    simRun 300 = (1, false) :=
  ⟨C4_progress_monotone_clamped.2.1 50,
   C4_progress_monotone_clamped.2.2.1 50 (by norm_num),
   C4_progress_monotone_clamped.2.2.2.2 300 (by norm_num)⟩

/-- C5: when both endpoints geocode but `calculateRoute` yields `null` or
an empty coordinate list, the call fails with the single "no accessible
route" error and leaves the previously published route coordinates,
duration, distance, initial duration, progress and features unchanged. -/
theorem C5_noRoute_preserves_state (env : Env) (startLocation destination : String)
    (s : AppState) (sc ec : ℚ × ℚ)
    (hne : ¬(startLocation = "" ∨ destination = ""))
    (hg1 : env.geocode startLocation = some sc)
    (hg2 : env.geocode destination = some ec)
    (hr : env.calculateRoute sc ec s.routePreferences = .ok none ∨
          ∃ route, env.calculateRoute sc ec s.routePreferences = .ok (some route) ∧
            route.coordinates = []) :
    (handleFindRoute env startLocation destination s).1.routeError = some noRouteMsg ∧
    (handleFindRoute env startLocation destination s).1.routeCoordinates = s.routeCoordinates ∧
    (handleFindRoute env startLocation destination s).1.routeDuration = s.routeDuration ∧
    (handleFindRoute env startLocation destination s).1.routeDistance = s.routeDistance ∧
    (handleFindRoute env startLocation destination s).1.initialDuration = s.initialDuration ∧
    (handleFindRoute env startLocation destination s).1.routeProgress = s.routeProgress ∧
    (handleFindRoute env startLocation destination s).1.accessibilityFeatures =
      s.accessibilityFeatures := by
  unfold handleFindRoute tryFindRoute
  rw [if_neg hne]
  rcases hr with hr | ⟨route, hr, hc⟩
  · simp [hg1, hg2, hr]
  · simp [hg1, hg2, hr, hc]

/-- Witness for C5: a no-route environment leaves the initial state's
route data untouched and reports the no-route error. -/
theorem C5_witness :
    (handleFindRoute noRouteEnv "Union Station" "City Library" initialAppState).1.routeError =
      some noRouteMsg ∧
    (handleFindRoute noRouteEnv "Union Station" "City Library" initialAppState).1.routeCoordinates =
      initialAppState.routeCoordinates ∧
    (handleFindRoute noRouteEnv "Union Station" "City Library" initialAppState).1.routeDuration =
      initialAppState.routeDuration ∧
    (handleFindRoute noRouteEnv "Union Station" "City Library" initialAppState).1.routeDistance =
      initialAppState.routeDistance ∧
    (handleFindRoute noRouteEnv "Union Station" "City Library" initialAppState).1.initialDuration =
      initialAppState.initialDuration ∧
    (handleFindRoute noRouteEnv "Union Station" "City Library" initialAppState).1.routeProgress =
      initialAppState.routeProgress ∧
    (handleFindRoute noRouteEnv "Union Station" "City Library" initialAppState).1.accessibilityFeatures =
      initialAppState.accessibilityFeatures :=
  C5_noRoute_preserves_state noRouteEnv "Union Station" "City Library" initialAppState
    (10, 20) (11, 21) (by decide) (by decide) (by decide) (Or.inl rfl)

/-- C6 counterexample: a whitespace-only start text is truthy in JS, so
the guard at `src/App.tsx` line 91 does not reject it — the call issues
geocoding network calls and never produces the input-error message. -/
theorem C6_counterexample :
    (handleFindRoute demoEnv " " "City Library" initialAppState).2 ≠ [] ∧
    NetCall.geocode " " ∈ (handleFindRoute demoEnv " " "City Library" initialAppState).2 ∧
    (handleFindRoute demoEnv " " "City Library" initialAppState).1.routeError ≠
      some inputErrorMsg := by decide

/-- C6 (amended): only genuinely empty endpoint texts are rejected — if
either endpoint text equals `""`, the call fails with the input-error
message, issues no network calls, and leaves all other state unchanged;
whitespace-only texts pass the guard and proceed to geocoding. -/
theorem C6_empty_input_rejected (env : Env) (startLocation destination : String)
    (s : AppState) (h : startLocation = "" ∨ destination = "") :
    handleFindRoute env startLocation destination s =
      ({ s with routeError := some inputErrorMsg }, []) := by
  unfold handleFindRoute
  rw [if_pos h]

/-- Witness for C6 with an empty start text. -/
theorem C6_witness :
    handleFindRoute demoEnv "" "City Library" initialAppState =
      ({ initialAppState with routeError := some inputErrorMsg }, []) :=
  C6_empty_input_rejected demoEnv "" "City Library" initialAppState (Or.inl rfl)

/-- C7: whenever geocoding of an endpoint returns no coordinate, no
`calculateRoute` call is issued, and the error message embeds the failing
endpoint's input text verbatim (`"Could not find location: " ++ text`);
when the start text fails it is the one named, otherwise the failing
destination is named. -/
theorem C7_geocode_failure_names_endpoint (env : Env) (startLocation destination : String)
    (s : AppState)
    (hne : ¬(startLocation = "" ∨ destination = ""))
    (hfail : env.geocode startLocation = none ∨ env.geocode destination = none) :
    (∀ c1 c2, NetCall.calcRoute c1 c2 ∉ (handleFindRoute env startLocation destination s).2) ∧
    (env.geocode startLocation = none →
      (handleFindRoute env startLocation destination s).1.routeError =
        some ("Could not find location: " ++ startLocation)) ∧
    (env.geocode startLocation ≠ none → env.geocode destination = none →
      (handleFindRoute env startLocation destination s).1.routeError =
        some ("Could not find location: " ++ destination)) := by
  unfold handleFindRoute tryFindRoute
  rw [if_neg hne]
  cases hg1 : env.geocode startLocation with
  | none => simp [hg1, notFoundMsg]
  | some sc =>
      cases hg2 : env.geocode destination with
      | none => simp [hg1, hg2, notFoundMsg]
      | some ec =>
          rcases hfail with hfail | hfail
          · rw [hg1] at hfail
            exact absurd hfail (by simp)
          · rw [hg2] at hfail
            exact absurd hfail (by simp)

/-- Witness for C7: an unknown start place is named in the error and no
route calculation is issued. -/
theorem C7_witness :
    (∀ c1 c2, NetCall.calcRoute c1 c2 ∉
      (handleFindRoute demoEnv "Atlantis" "City Library" initialAppState).2) ∧
    (demoEnv.geocode "Atlantis" = none →
      (handleFindRoute demoEnv "Atlantis" "City Library" initialAppState).1.routeError =
        some ("Could not find location: " ++ "Atlantis")) ∧
    (demoEnv.geocode "Atlantis" ≠ none → demoEnv.geocode "City Library" = none →
      (handleFindRoute demoEnv "Atlantis" "City Library" initialAppState).1.routeError =
        some ("Could not find location: " ++ "City Library")) :=
  C7_geocode_failure_names_endpoint demoEnv "Atlantis" "City Library" initialAppState
    (by decide) (Or.inl (by decide))

/-- C8: on every exit path of `handleFindRoute` — input rejection,
geocoding failure of either endpoint, no-route failure, unexpected
thrown error, or success — the calculating flag is false at termination,
provided it was false when the call began (the early input-rejection
return never touches the flag; every other path clears it). -/
theorem C8_calculating_cleared (env : Env) (startLocation destination : String)
    (s : AppState) (h : s.isCalculatingRoute = false) :
    (handleFindRoute env startLocation destination s).1.isCalculatingRoute = false := by
  unfold handleFindRoute
  by_cases hin : startLocation = "" ∨ destination = ""
  · simp [hin, h]
  · simp [hin]

/-- Witness for C8 on a fully successful call. -/
theorem C8_witness :
    (handleFindRoute demoEnv "Union Station" "City Library" initialAppState).1.isCalculatingRoute =
      false :=
  C8_calculating_cleared demoEnv "Union Station" "City Library" initialAppState rfl

/-- C10: with two non-empty endpoint texts, the destination is geocoded
even when the start text geocoded to nothing: the call trace is exactly
both geocode calls, in order, and only afterwards is the start failure
reported. -/
theorem C10_destination_geocoded_after_start_failure (env : Env)
    (startLocation destination : String) (s : AppState)
    (hne : ¬(startLocation = "" ∨ destination = ""))
    (hg1 : env.geocode startLocation = none) :
    (handleFindRoute env startLocation destination s).2 =
      [NetCall.geocode startLocation, NetCall.geocode destination] ∧
    (handleFindRoute env startLocation destination s).1.routeError =
      some (notFoundMsg startLocation) := by
  unfold handleFindRoute tryFindRoute
  rw [if_neg hne]
  simp [hg1]

/-- Witness for C10: an unknown start place still triggers the
destination geocode. -/
theorem C10_witness :
    (handleFindRoute demoEnv "Atlantis" "Museum" initialAppState).2 =
      [NetCall.geocode "Atlantis", NetCall.geocode "Museum"] ∧
    (handleFindRoute demoEnv "Atlantis" "Museum" initialAppState).1.routeError =
      some (notFoundMsg "Atlantis") :=
  C10_destination_geocoded_after_start_failure demoEnv "Atlantis" "Museum" initialAppState
    (by decide) (by decide)

/-- Unfolding of the published duration across one tick. -/
theorem runState_snd_succ (d : ℚ) (k : ℕ) :
    (runState d (k + 1)).2 =
      durationEffect d ((simTick (simRun k)).1) ((runState d k).2) := by
  simp only [runState]
  rw [runState_fst]

/-- Closed form of the published remaining duration for a nonzero initial
duration: before completion it tracks `round (d * (1 - k / 200))`; once
the fraction reaches 1 the effect is skipped, so the value stays frozen
at the tick-199 value `round (d / 200)`. -/
theorem runState_closedForm (d : ℚ) (hd : d ≠ 0) (k : ℕ) :
    (runState d k).2 =
      if k < 200 then remainingDuration d ((k : ℚ) / 200)
      else remainingDuration d (199 / 200) := by
  induction k with
  | zero =>
      simp only [runState, durationEffect]
      rw [if_pos ⟨hd, by norm_num⟩, if_pos (by norm_num)]
      norm_num
  | succ k ih =>
      rw [runState_snd_succ, ih, simRun_closedForm]
      by_cases hk : k < 200
      · rw [if_pos hk]
        by_cases hk1 : k + 1 < 200
        · rw [if_pos hk1, simTick_active]
          have hstep : (k : ℚ) / 200 + 0.005 = ((k : ℚ) + 1) / 200 := by
            rw [show (0.005 : ℚ) = 1 / 200 by norm_num]
            ring
          have hlt : (k : ℚ) / 200 + 0.005 < 1 := by
            rw [hstep, div_lt_one (by norm_num : (0 : ℚ) < 200)]
            have : ((k : ℕ) : ℚ) + 1 < 200 := by exact_mod_cast hk1
            linarith
          rw [if_neg (not_le.mpr hlt)]
          simp only [durationEffect]
          rw [if_pos ⟨hd, hlt⟩, hstep]
          push_cast
          rfl
        · have hk199 : k = 199 := by omega
          subst hk199
          rw [if_neg hk1, simTick_active, if_pos (by push_cast; norm_num)]
          simp only [durationEffect]
          rw [if_neg (by norm_num)]
          norm_num
      · rw [if_neg hk, simTick_inactive, if_neg (show ¬(k + 1 < 200) by omega)]
        simp only [durationEffect]
        rw [if_neg (by simp), if_neg hk]

/-- C2 counterexample: with initial duration 7200 s, at completion
(progress fraction exactly 1, tick 200) the effect at `src/App.tsx`
lines 229–235 is skipped by its `routeProgress < 1` guard, so the
published duration stays at the tick-199 value `round (7200 / 200) = 36`,
not `round (7200 × (1 − 1)) = 0` as the claim requires. -/
theorem C2_counterexample :
    (simRun 200).1 = 1 ∧
    (runState 7200 200).2 = 36 ∧
    remainingDuration 7200 1 = 0 ∧ (36 : ℚ) ≠ 0 := by
  refine ⟨by norm_num [simRun_closedForm], ?_, ?_, by norm_num⟩
  · rw [runState_closedForm 7200 (by norm_num) 200, if_neg (by norm_num)]
    norm_num [remainingDuration]
  · norm_num [remainingDuration]

/-- C2 (amended): after a route with nonzero initial duration `d` is
accepted, at every tick where the progress fraction is still below 1 the
published duration equals `round (d × (1 − progressFraction))`; at
completion (fraction = 1) the update is skipped and the published
duration remains frozen at the last pre-completion value
`round (d × (1 − 199/200))`. -/
theorem C2_remaining_duration (d : ℚ) (hd : d ≠ 0) (k : ℕ) :
    ((simRun k).1 < 1 → (runState d k).2 = remainingDuration d ((simRun k).1)) ∧
    (200 ≤ k → (simRun k).1 = 1 ∧ (runState d k).2 = remainingDuration d (199 / 200)) := by
  constructor
  · intro hlt
    by_cases hk : k < 200
    · rw [runState_closedForm d hd k, if_pos hk, simRun_closedForm, if_pos hk]
    · rw [simRun_closedForm, if_neg hk] at hlt
      norm_num at hlt
  · intro hk
    have hk2 : ¬k < 200 := by omega
    rw [runState_closedForm d hd k, if_neg hk2, simRun_closedForm, if_neg hk2]
    exact ⟨rfl, rfl⟩

/-- Witness for C2 (amended) at 10 ticks and at 250 ticks with
duration 7200. -/
theorem C2_witness :
    (runState 7200 10).2 = remainingDuration 7200 ((simRun 10).1) ∧
    ((simRun 250).1 = 1 ∧ (runState 7200 250).2 = remainingDuration 7200 (199 / 200)) :=
  ⟨(C2_remaining_duration 7200 (by norm_num) 10).1 (by norm_num [simRun_closedForm]),
   (C2_remaining_duration 7200 (by norm_num) 250).2 (by norm_num)⟩

/-- C9: for a route accepted with duration 7200 s and distance 2500 m
(as produced by the demo environment), after exactly 10 simulation ticks
the progress fraction is 0.05 and the published remaining duration is
`round (7200 × 0.95) = 6840`. -/
theorem C9_ten_ticks :
    (handleFindRoute demoEnv "Union Station" "City Library" initialAppState).1.initialDuration =
      some 7200 ∧
    (handleFindRoute demoEnv "Union Station" "City Library" initialAppState).1.routeDistance =
      some 2500 ∧
    (simRun 10).1 = 0.05 ∧
    (runState 7200 10).2 = 6840 ∧
    remainingDuration 7200 0.05 = 6840 := by
  refine ⟨by decide, by decide, by norm_num [simRun_closedForm], ?_, ?_⟩
  · rw [runState_closedForm 7200 (by norm_num) 10, if_pos (by norm_num)]
    norm_num [remainingDuration, round_eq]
  · norm_num [remainingDuration, round_eq]

/-- C3 counterexample: a first successful request loads a feature; a
second request whose accessibility fetch throws keeps the previous
(non-empty) feature list — the feature set does not resolve to the empty
set, it is simply left untouched. -/
theorem C3_counterexample :
    ((handleFindRoute featureThrowEnv "City Library" "Museum"
        (handleFindRoute demoEnv "Union Station" "City Library" initialAppState).1).1.routeError
      = none) ∧
    ((handleFindRoute featureThrowEnv "City Library" "Museum"
        (handleFindRoute demoEnv "Union Station" "City Library" initialAppState).1).1.accessibilityFeatures
      = [rampFeature (10, 20)]) ∧
    [rampFeature (10, 20)] ≠ ([] : List AccessibilityFeature) := by decide

/-- C3 (amended): when geocoding and route calculation succeed but the
accessibility fetch throws, the route and the reset progress state are
still published, the user-visible error output stays unset, and the
accessibility feature list is left at its prior value (so it is empty
exactly when it was empty before the call). -/
theorem C3_enrichment_failure_silent (env : Env) (startLocation destination : String)
    (s : AppState) (sc ec : ℚ × ℚ) (route : RouteResult)
    (hne : ¬(startLocation = "" ∨ destination = ""))
    (hg1 : env.geocode startLocation = some sc)
    (hg2 : env.geocode destination = some ec)
    (hr : env.calculateRoute sc ec s.routePreferences = .ok (some route))
    (hc : route.coordinates ≠ [])
    (hf : env.fetchFeatures route.coordinates = .error ()) :
    (handleFindRoute env startLocation destination s).1.routeCoordinates = route.coordinates ∧
    (handleFindRoute env startLocation destination s).1.routeDuration = some route.duration ∧
    (handleFindRoute env startLocation destination s).1.initialDuration = some route.duration ∧
    (handleFindRoute env startLocation destination s).1.routeDistance = some route.distance ∧
    (handleFindRoute env startLocation destination s).1.routeProgress = 0 ∧
    (handleFindRoute env startLocation destination s).1.routeError = none ∧
    (handleFindRoute env startLocation destination s).1.accessibilityFeatures =
      s.accessibilityFeatures ∧
    (handleFindRoute env startLocation destination s).1.isLoadingFeatures = false := by
  unfold handleFindRoute tryFindRoute
  rw [if_neg hne]
  cases hw : env.fetchWeather sc.2 sc.1 with
  | ok weather => simp [hg1, hg2, hr, hc, hf, hw]
  | error e => simp [hg1, hg2, hr, hc, hf, hw]

/-- Witness for C3 (amended) in the feature-throwing environment. -/
theorem C3_witness :
    (handleFindRoute featureThrowEnv "Union Station" "City Library" initialAppState).1.routeCoordinates =
      [(10, 20), (11, 21)] ∧
    (handleFindRoute featureThrowEnv "Union Station" "City Library" initialAppState).1.routeDuration =
      some 7200 ∧
    (handleFindRoute featureThrowEnv "Union Station" "City Library" initialAppState).1.initialDuration =
      some 7200 ∧
    (handleFindRoute featureThrowEnv "Union Station" "City Library" initialAppState).1.routeDistance =
      some 2500 ∧
    (handleFindRoute featureThrowEnv "Union Station" "City Library" initialAppState).1.routeProgress =
      0 ∧
    (handleFindRoute featureThrowEnv "Union Station" "City Library" initialAppState).1.routeError =
      none ∧
    (handleFindRoute featureThrowEnv "Union Station" "City Library" initialAppState).1.accessibilityFeatures =
      initialAppState.accessibilityFeatures ∧
    (handleFindRoute featureThrowEnv "Union Station" "City Library" initialAppState).1.isLoadingFeatures =
      false :=
  C3_enrichment_failure_silent featureThrowEnv "Union Station" "City Library" initialAppState
    (10, 20) (11, 21) { coordinates := [(10, 20), (11, 21)], duration := 7200, distance := 2500 }
    (by decide) (by decide) (by decide) rfl (by decide) rfl

/-- C1: the code has no request-identity guard, so the claimed discard of
stale results fails.  Concrete interleaving: invocation 1
(Union Station → City Library) runs up to issuing its feature fetch
(segments 1–4, publishing route 1); invocation 2
(City Library → Museum) then runs to completion, publishing route 2
together with its feature list (located at (11, 21)) and weather
(temperature 21); finally invocation 1's suspended feature and weather
continuations resume (segments 5–6).  The final state keeps
invocation 2's route but carries invocation 1's feature list (located at
(10, 20)) and invocation 1's weather snapshot (temperature 20): the
late-arriving stale results overwrote the state established by the
second invocation, contradicting the claim. -/
theorem C1_stale_results_overwrite :
    (runInterleaving
        (segsOf demoEnv initialAppState.routePreferences "Union Station" "City Library")
        (segsOf demoEnv initialAppState.routePreferences "City Library" "Museum")
        [true, true, true, true, false, false, false, false, false, false, true, true]
        initialAppState).routeCoordinates = [(11, 21), (12, 22)] ∧
    (runInterleaving
        (segsOf demoEnv initialAppState.routePreferences "Union Station" "City Library")
        (segsOf demoEnv initialAppState.routePreferences "City Library" "Museum")
        [true, true, true, true, false, false, false, false, false, false, true, true]
        initialAppState).accessibilityFeatures = [rampFeature (10, 20)] ∧
    (runInterleaving
        (segsOf demoEnv initialAppState.routePreferences "Union Station" "City Library")
        (segsOf demoEnv initialAppState.routePreferences "City Library" "Museum")
        [true, true, true, true, false, false, false, false, false, false, true, true]
        initialAppState).weatherData =
      some { temperature := 20
             precipitation := 0
             condition := .clear
             icon := "01d"
             description := "clear sky" } ∧
    demoEnv.fetchFeatures [(11, 21), (12, 22)] = .ok [rampFeature (11, 21)] ∧
    rampFeature (10, 20) ≠ rampFeature (11, 21) := by
  refine ⟨by decide, by decide, by decide, rfl, by decide⟩

end AccessApp
